import Mathlib

/-!
A shallow embedding of `src/flight_analysis.py` (pandas-based flight delay
analysis) and proofs about it.

Modelling conventions:
* A dataframe cell is `Option Val` where `Val` is a rational number or a
  string; `none` models a missing value (NaN).
* A row is a function from column names to cells; a `Table` carries the
  ordered column list and the row list.
* pandas operations that can raise `KeyError` are embedded in
  `Except (List String)`, the error listing the missing column name(s).
* Numeric reductions (`sum`, `mean`) skip `none` cells, as pandas does with
  `skipna=True`; theorems that depend on cell arithmetic carry numeric-cell
  hypotheses so that string cells (where pandas would concatenate) are out
  of scope.
* `sort_values(..., ascending=False)` follows the shape of pandas
  `nargsort`: reverse the rows, argsort ascending, reverse the result.  The
  source uses the default `kind='quicksort'` (numpy introsort), which
  leaves the relative order of equal keys unspecified, so the embedding
  realises the argsort by one arbitrary computable insertion sort and the
  theorems rely only on facts independent of the tie order (length,
  permutation, membership).
-/

/-- A scalar value stored in a dataframe cell: a number or a string. -/
inductive Val where
  | num (q : ℚ)
  | str (s : String)
deriving DecidableEq

/-- A cell of a dataframe: `none` models a missing value (NaN). -/
abbrev Cell := Option Val

/-- A row maps column names to cells. -/
abbrev Row := String → Cell

/-- An in-memory dataframe: ordered column names plus rows. -/
structure Table where
  cols : List String
  rows : List Row

/-- Numeric reading of a cell, used by sums: NaN is skipped (contributes 0).
String cells are outside the numeric claims (guarded by hypotheses). -/
def toQ : Cell → ℚ
  | some (.num q) => q
  | _ => 0

/-- A cell is numeric-or-missing (no string payload). -/
def numericCell : Cell → Bool
  | some (.str _) => false
  | _ => true

/-- Build a row from an association list; absent names are missing cells. -/
def mkRow (l : List (String × Val)) : Row := fun c =>
  (l.find? (fun p => p.1 = c)).map (fun p => p.2)

/-- Python `int(...)` applied to a rational: truncation toward zero. -/
def pyInt (q : ℚ) : ℤ := Int.tdiv q.num (q.den : ℤ)

/-- `df[c]` for a single column: `KeyError` if the column is absent. -/
def Table.getCol (t : Table) (c : String) : Except (List String) (List Cell) :=
  if c ∈ t.cols then .ok (t.rows.map (fun r => r c)) else .error [c]

/-- `df[cs]` for a column list: `KeyError` naming all absent columns. -/
def Table.selectCols (t : Table) (cs : List String) : Except (List String) Table :=
  let missing := cs.filter (fun c => c ∉ t.cols)
  if missing = [] then .ok { cols := cs, rows := t.rows } else .error missing

/-- `df[c] = f(row)` column assignment: appends the column if new, and
rewrites every row, the new cell computed from the pre-assignment row. -/
def assignCol (t : Table) (c : String) (f : Row → Cell) : Table :=
  { cols := if c ∈ t.cols then t.cols else t.cols ++ [c],
    rows := t.rows.map (fun r => fun c2 => if c2 = c then f r else r c2) }

/-- Sum of a list of cells, skipping missing values (pandas `sum`). -/
def sumCells (l : List Cell) : ℚ := (l.map toQ).sum

/-- Number of missing values in a column (pandas `isnull().sum()`). -/
def nullCount (t : Table) (c : String) : ℕ :=
  (t.rows.filter (fun r => (r c).isNone)).length

/- ### Sorting -/

/-- One insertion step: place `x` before the first element `y` with
`lt x y`. -/
def insort (lt : α → α → Bool) (x : α) : List α → List α
  | [] => [x]
  | y :: ys => if lt x y then x :: y :: ys else y :: insort lt x ys

/-- Ascending sort by repeated insertion: the computable stand-in for
numpy's argsort.  The source sorts with the default `kind='quicksort'`
(numpy introsort), whose order among equal keys is unspecified, so no
theorem reads anything but tie-order-independent facts off this sort. -/
def insertionSort (lt : α → α → Bool) (l : List α) : List α :=
  l.foldl (fun acc x => insort lt x acc) []

/-- pandas `sort_values(key, ascending=False)` via `nargsort`: reverse the
rows, argsort ascending, reverse the result.  The argsort here is one
concrete choice; the source's default `kind='quicksort'` leaves the order
of equal keys unspecified. -/
def sort_values_desc (key : α → ℚ) (l : List α) : List α :=
  (insertionSort (fun a b => decide (key a < key b)) l.reverse).reverse

/- ### validate_data (source lines 145-167) -/

/-- The report returned by `validate_data`. -/
structure ValidationReport where
  missing_columns : List String
  missing_values : List (String × ℕ)
  is_valid : Bool
deriving DecidableEq

/-- `validate_data(df, required_cols)`: report missing columns and, for the
present required columns, positive null counts; `is_valid` starts `True`
and is cleared by either finding.  The only pandas access is
`df[present_cols]`, embedded fallibly to express that it cannot fail. -/
def validate_data (df : Table) (required_cols : List String) :
    Except (List String) ValidationReport :=
  let missing_cols := required_cols.filter (fun c => c ∉ df.cols)
  let present_cols := required_cols.filter (fun c => c ∈ df.cols)
  match df.selectCols present_cols with
  | .error e => .error e
  | .ok sub =>
      let missing_vals :=
        ((present_cols.map (fun c => (c, nullCount sub c))).filter
          (fun p => 0 < p.2)).dedup
      .ok { missing_columns := missing_cols,
            missing_values := missing_vals,
            is_valid := missing_cols.isEmpty && missing_vals.isEmpty }

theorem validate_data_ok (df : Table) (required_cols : List String) :
    validate_data df required_cols =
      .ok { missing_columns := required_cols.filter (fun c => c ∉ df.cols),
            missing_values :=
              (((required_cols.filter (fun c => c ∈ df.cols)).map
                  (fun c => (c, nullCount { cols := required_cols.filter (fun c => c ∈ df.cols), rows := df.rows } c))).filter
                (fun p => 0 < p.2)).dedup,
            is_valid :=
              (required_cols.filter (fun c => c ∉ df.cols)).isEmpty &&
              ((((required_cols.filter (fun c => c ∈ df.cols)).map
                  (fun c => (c, nullCount { cols := required_cols.filter (fun c => c ∈ df.cols), rows := df.rows } c))).filter
                (fun p => 0 < p.2)).dedup).isEmpty } := by
  unfold validate_data Table.selectCols
  simp

/-- Claim C2: for every table `T` and required-column sequence `R`,
`validate_data T R` returns a report whose `is_valid` field is `false` iff
some column of `R` is absent from `T`, or some present required column has
at least one missing value; equivalently `is_valid` is `true` exactly when
`missing_columns` and `missing_values` are both empty. -/
theorem validate_data_is_valid_iff (df : Table) (R : List String) :
    ∃ rep, validate_data df R = .ok rep ∧
      (rep.is_valid = false ↔
        ((∃ c ∈ R, c ∉ df.cols) ∨ (∃ c ∈ R, c ∈ df.cols ∧ 0 < nullCount df c))) ∧
      rep.is_valid = (rep.missing_columns.isEmpty && rep.missing_values.isEmpty) := by
  refine ⟨_, validate_data_ok df R, ?_, rfl⟩
  simp only [Bool.and_eq_false_iff, List.isEmpty_eq_false]
  have hA : R.filter (fun c => decide (c ∉ df.cols)) ≠ [] ↔ ∃ c ∈ R, c ∉ df.cols := by
    rw [ne_eq, List.filter_eq_nil_iff]
    push_neg
    simp
  have hV : (((R.filter (fun c => c ∈ df.cols)).map
        (fun c => (c, nullCount { cols := R.filter (fun c => c ∈ df.cols), rows := df.rows } c))).filter
        (fun p => decide (0 < p.2))).dedup ≠ [] ↔
      ∃ c ∈ R, c ∈ df.cols ∧ 0 < nullCount df c := by
    rw [ne_eq, List.dedup_eq_nil, List.filter_eq_nil_iff]
    push_neg
    constructor
    · rintro ⟨p, hm, hp⟩
      rw [List.mem_map] at hm
      obtain ⟨c2, hc2, heq⟩ := hm
      rw [List.mem_filter] at hc2
      subst heq
      exact ⟨c2, hc2.1, by simpa using hc2.2, by simpa using hp⟩
    · rintro ⟨c, hcR, hcmem, hcnt0⟩
      refine ⟨(c, nullCount df c), ?_, by simpa using hcnt0⟩
      simp only [List.mem_map, List.mem_filter]
      exact ⟨c, ⟨hcR, by simpa using hcmem⟩, rfl⟩
  rw [hA, hV]

/-- Claim C9 (amended): `validate_data` always returns a report (its only
fallible step, `df[present_cols]`, cannot fail), and for a table with no
columns and a nonempty required sequence, every required column is listed
in `missing_columns` and `is_valid` is `false`.  (The original claim fails
when the required sequence is empty: see the counterexample.) -/
theorem validate_data_total_empty (df : Table) (R : List String) :
    (∃ rep, validate_data df R = .ok rep) ∧
    (df.cols = [] → R ≠ [] →
      validate_data df R =
        .ok { missing_columns := R, missing_values := [], is_valid := false }) := by
  constructor
  · exact ⟨_, validate_data_ok df R⟩
  · intro hcols hR
    rw [validate_data_ok df R]
    have h1 : R.filter (fun c => decide (c ∉ df.cols)) = R := by
      rw [List.filter_eq_self]
      intro c _
      simp [hcols]
    have h2 : R.filter (fun c => decide (c ∈ df.cols)) = [] := by
      rw [List.filter_eq_nil_iff]
      intro c _
      simp [hcols]
    simp only [h1, h2, List.map_nil, List.filter_nil, List.dedup_nil, List.isEmpty_nil,
      Bool.and_true]
    have h3 : R.isEmpty = false := List.isEmpty_eq_false.mpr hR
    rw [h3]

/-- Counterexample for claim C9 as stated: for the empty table and the empty
required-column sequence, `validate_data` returns `is_valid = true`, not
`false`. -/
theorem validate_data_empty_empty_valid :
    validate_data { cols := [], rows := [] } [] =
      .ok { missing_columns := [], missing_values := [], is_valid := true } := rfl

/-- Witness for `validate_data_total_empty` at a concrete input. -/
theorem validate_data_total_empty_witness :
    (["year"] : List String) ≠ [] ∧
    validate_data { cols := [], rows := [] } ["year"] =
      .ok { missing_columns := ["year"], missing_values := [], is_valid := false } :=
  ⟨by decide, (validate_data_total_empty { cols := [], rows := [] } ["year"]).2 rfl (by decide)⟩

/- ### display_counts (source lines 19-46) -/

/-- The row filter of `display_counts`: exact conjunctive equality on the
year, airport and month columns; a missing cell (NaN) never matches. -/
def rowMatches (year airport month : Val) (ycol acol mcol : String) (r : Row) : Bool :=
  decide (r ycol = some year) && decide (r acol = some airport) &&
  decide (r mcol = some month)

/-- `display_counts(df, year, airport, month, ...)`: filter by the three
keys, then return `(0, 0)` on an empty match, else the truncated integer
sums of the cancellation and diversion columns over the matching rows.
The returned pair is the `(cancelled, diverted)` data shown by the panel. -/
def display_counts (df : Table) (year airport month : Val)
    (year_col month_col airport_col cancelled_col diverted_col : String) :
    Except (List String) (ℤ × ℤ) :=
  if year_col ∈ df.cols then
    if airport_col ∈ df.cols then
      if month_col ∈ df.cols then
        let filtered :=
          df.rows.filter (rowMatches year airport month year_col airport_col month_col)
        if filtered.isEmpty then .ok (0, 0)
        else
          if cancelled_col ∈ df.cols then
            if diverted_col ∈ df.cols then
              .ok (pyInt (sumCells (filtered.map (fun r => r cancelled_col))),
                   pyInt (sumCells (filtered.map (fun r => r diverted_col))))
            else .error [diverted_col]
          else .error [cancelled_col]
      else .error [month_col]
    else .error [airport_col]
  else .error [year_col]

/-- Claim C6: `display_counts` filters rows by exact conjunctive equality on
the three configured columns; with zero matches both counts are exactly 0
(not an error), and otherwise each count is the sum of the configured
column over the matching rows, truncated to an integer.  The numeric-cell
hypotheses keep string cells (where pandas would concatenate) out of
scope. -/
theorem display_counts_correct (df : Table) (year airport month : Val)
    (ycol mcol acol ccol dcol : String)
    (hy : ycol ∈ df.cols) (ha : acol ∈ df.cols) (hm : mcol ∈ df.cols)
    (hc : ccol ∈ df.cols) (hd : dcol ∈ df.cols)
    (hnum : ∀ r ∈ df.rows, numericCell (r ccol) = true ∧ numericCell (r dcol) = true) :
    (df.rows.filter (rowMatches year airport month ycol acol mcol) = [] →
      display_counts df year airport month ycol mcol acol ccol dcol = .ok (0, 0)) ∧
    (df.rows.filter (rowMatches year airport month ycol acol mcol) ≠ [] →
      display_counts df year airport month ycol mcol acol ccol dcol =
        .ok (pyInt (sumCells ((df.rows.filter (rowMatches year airport month ycol acol mcol)).map
                (fun r => r ccol))),
             pyInt (sumCells ((df.rows.filter (rowMatches year airport month ycol acol mcol)).map
                (fun r => r dcol))))) := by
  unfold display_counts
  rw [if_pos hy, if_pos ha, if_pos hm]
  constructor
  · intro hnil
    simp [hnil]
  · intro hne
    have hne2 : (df.rows.filter (rowMatches year airport month ycol acol mcol)).isEmpty = false :=
      List.isEmpty_eq_false.mpr hne
    simp only [hne2, Bool.false_eq_true, if_false, if_pos hc, if_pos hd]

/-- First row of the spec's concrete summary scenario. -/
def dcR1 : Row := mkRow [("year", .num 2023), ("month", .num 1),
  ("airport_name", .str "JFK"), ("arr_cancelled", .num 5), ("arr_diverted", .num 2)]

/-- Second row of the spec's concrete summary scenario. -/
def dcR2 : Row := mkRow [("year", .num 2023), ("month", .num 1),
  ("airport_name", .str "JFK"), ("arr_cancelled", .num 3), ("arr_diverted", .num 0)]

/-- The spec's concrete summary table. -/
def dcTable : Table :=
  { cols := ["year", "month", "airport_name", "arr_cancelled", "arr_diverted"],
    rows := [dcR1, dcR2] }

/-- Witness for `display_counts_correct`: the spec's concrete scenario,
yielding cancelled = 8 and diverted = 2. -/
theorem display_counts_correct_witness :
    ("year" ∈ dcTable.cols ∧ "airport_name" ∈ dcTable.cols ∧ "month" ∈ dcTable.cols ∧
      "arr_cancelled" ∈ dcTable.cols ∧ "arr_diverted" ∈ dcTable.cols) ∧
    display_counts dcTable (.num 2023) (.str "JFK") (.num 1)
      "year" "month" "airport_name" "arr_cancelled" "arr_diverted" = .ok (8, 2) := by
  refine ⟨⟨by decide, by decide, by decide, by decide, by decide⟩, ?_⟩
  have hf : dcTable.rows.filter
      (rowMatches (.num 2023) (.str "JFK") (.num 1) "year" "airport_name" "month") =
      [dcR1, dcR2] := rfl
  have hne : dcTable.rows.filter
      (rowMatches (.num 2023) (.str "JFK") (.num 1) "year" "airport_name" "month") ≠ [] := by
    rw [hf]
    simp
  have h := (display_counts_correct dcTable (.num 2023) (.str "JFK") (.num 1)
      "year" "month" "airport_name" "arr_cancelled" "arr_diverted"
      (by decide) (by decide) (by decide) (by decide) (by decide)
      (by decide)).2 hne
  rw [h, hf]
  have h1 : dcR1 "arr_cancelled" = some (.num 5) := by decide
  have h2 : dcR2 "arr_cancelled" = some (.num 3) := by decide
  have h3 : dcR1 "arr_diverted" = some (.num 2) := by decide
  have h4 : dcR2 "arr_diverted" = some (.num 0) := by decide
  simp only [List.map_cons, List.map_nil, sumCells, h1, h2, h3, h4, toQ]
  norm_num [pyInt]

/- ### Properties of the stable sort -/

theorem insort_perm (lt : α → α → Bool) (x : α) (l : List α) :
    (insort lt x l).Perm (x :: l) := by
  induction l with
  | nil => exact List.Perm.refl _
  | cons y ys ih =>
    unfold insort
    by_cases h : lt x y
    · rw [if_pos h]
    · rw [if_neg h]
      exact (ih.cons y).trans (List.Perm.swap x y ys)

theorem insertionSort_perm (lt : α → α → Bool) (l : List α) :
    (insertionSort lt l).Perm l := by
  have aux : ∀ (l acc : List α), ((l.foldl (fun acc x => insort lt x acc) acc)).Perm (acc ++ l) := by
    intro l
    induction l with
    | nil => intro acc; simp
    | cons x xs ih =>
      intro acc
      have h1 := ih (insort lt x acc)
      have h2 : (insort lt x acc ++ xs).Perm ((x :: acc) ++ xs) :=
        (insort_perm lt x acc).append_right xs
      have h3 : ((x :: acc) ++ xs).Perm (acc ++ x :: xs) := by
        simpa using List.perm_middle.symm
      exact (h1.trans h2).trans h3
  simpa using aux l []

theorem sort_values_desc_perm (key : α → ℚ) (l : List α) :
    (sort_values_desc key l).Perm l := by
  unfold sort_values_desc
  exact ((List.reverse_perm _).trans (insertionSort_perm _ _)).trans (List.reverse_perm _)

/- ### compute_combo_chart (source lines 49-96) -/

/-- Row-wise sum across the delay factor columns
(`df[delay_factors].sum(axis=1)`, NaN skipped). -/
def rowSum (delay_factors : List String) (r : Row) : ℚ :=
  (delay_factors.map (fun c => toQ (r c))).sum

/-- The in-place write `df["total_delay"] = df[delay_factors].sum(axis=1)`:
the caller-visible table after the assignment. -/
def combo_df1 (df : Table) (delay_factors : List String) : Table :=
  assignCol df "total_delay" (fun r => some (.num (rowSum delay_factors r)))

/-- Strict order on scalar values used for pandas group-key sorting;
the cross-type branches are arbitrary (pandas raises there). -/
def Val.ltB : Val → Val → Bool
  | .num a, .num b => decide (a < b)
  | .str a, .str b => decide (a < b)
  | .num _, .str _ => true
  | .str _, .num _ => false

/-- Lexicographic order on pairs of scalar values (multi-index sorting). -/
def pairLtB (p q : Val × Val) : Bool :=
  Val.ltB p.1 q.1 || (decide (p.1 = q.1) && Val.ltB p.2 q.2)

/-- The `(code, name)` group key of a row; `none` (row dropped) when either
key cell is missing, as pandas `groupby` drops NaN keys. -/
def comboKey (code_col name_col : String) (r : Row) : Option (Val × Val) :=
  match r code_col, r name_col with
  | some a, some b => some (a, b)
  | _, _ => none

/-- The distinct non-null group keys, in sorted order
(pandas `groupby(..., sort=True)`). -/
def comboKeys (t : Table) (code_col name_col : String) : List (Val × Val) :=
  insertionSort pairLtB ((t.rows.filterMap (comboKey code_col name_col)).dedup)

/-- The aggregated row of one group after `.sum().reset_index()`:
key columns carry the key, every other table column carries the sum of its
cells over the group's rows. -/
def comboGroupedRow (t : Table) (code_col name_col : String) (k : Val × Val) : Row := fun c =>
  if c = code_col then some k.1
  else if c = name_col then some k.2
  else if c ∈ t.cols then
    some (.num (sumCells ((t.rows.filter
      (fun r => decide (comboKey code_col name_col r = some k))).map (fun r => r c))))
  else none

/-- `df.groupby([code_col, name_col]).sum().reset_index()`. -/
def combo_grouped (t : Table) (code_col name_col : String) : Table :=
  { cols := code_col :: name_col ::
      t.cols.filter (fun c => decide (c ≠ code_col ∧ c ≠ name_col)),
    rows := (comboKeys t code_col name_col).map (comboGroupedRow t code_col name_col) }

/-- The ranking sort key: the aggregated `total_delay` cell of a row. -/
def totalKeyQ (r : Row) : ℚ := toQ (r "total_delay")

/-- `grouped.sort_values("total_delay", ascending=False).head(10)`. -/
def combo_top10 (g : Table) : Table :=
  { cols := g.cols, rows := (sort_values_desc totalKeyQ g.rows).take 10 }

/-- `compute_combo_chart(df, entity, factor, entity_options, delay_factors)`.
Returns the ranked top-10 table handed to the chart layer, paired with the
caller-visible table after the in-place `total_delay` write. -/
def compute_combo_chart (df : Table) (entity factor : String)
    (entity_options : String → String × String) (delay_factors : List String) :
    Except (List String) (Table × Table) :=
  let name_col := (entity_options entity).1
  let code_col := (entity_options entity).2
  let missing := delay_factors.filter (fun c => c ∉ df.cols)
  if missing = [] then
    let df1 := combo_df1 df delay_factors
    if code_col ∈ df1.cols then
      if name_col ∈ df1.cols then
        .ok (combo_top10 (combo_grouped df1 code_col name_col), df1)
      else .error [name_col]
    else .error [code_col]
  else .error missing

/-- Membership in the columns of the table after the `total_delay` write. -/
theorem mem_combo_df1_cols (df : Table) (dfs : List String) (c : String) :
    c ∈ (combo_df1 df dfs).cols ↔ c ∈ df.cols ∨ c = "total_delay" := by
  unfold combo_df1 assignCol
  by_cases h : "total_delay" ∈ df.cols
  · rw [if_pos h]
    constructor
    · exact Or.inl
    · rintro (hc | rfl)
      · exact hc
      · exact h
  · rw [if_neg h]
    simp

/-- The row of the C1 scenario table. -/
def c1Row : Row := mkRow [("code", .str "AA"), ("name", .str "American"), ("d1", .num 3)]

/-- The C1 scenario table: no `total_delay` column before the call. -/
def c1Table : Table := { cols := ["code", "name", "d1"], rows := [c1Row] }

/-- The C1 entity-option map: entity key columns `("name", "code")`. -/
def c1Options : String → String × String := fun _ => ("name", "code")

/-- Claim C1 fails on the code: `compute_combo_chart` writes the derived
`total_delay` column onto the caller's table in place, so after the call
the caller's table does not have exactly the columns it had before.  At
this concrete input, the caller-visible table gains a `total_delay`
column. -/
theorem compute_combo_chart_mutates_caller :
    (compute_combo_chart c1Table "Airline" "d1" c1Options ["d1"]).map (fun p => p.2.cols) =
      .ok ["code", "name", "d1", "total_delay"] ∧
    "total_delay" ∉ c1Table.cols := by
  constructor
  · rfl
  · decide

/-- Success path of `compute_combo_chart`: when the delay factor columns are
present and the key columns are present after the `total_delay` write, the
call returns the ranked top-10 table and the written-to table. -/
theorem compute_combo_chart_ok (df : Table) (entity factor : String)
    (eo : String → String × String) (dfs : List String)
    (hd : ∀ c ∈ dfs, c ∈ df.cols)
    (hc : (eo entity).2 ∈ (combo_df1 df dfs).cols)
    (hn : (eo entity).1 ∈ (combo_df1 df dfs).cols) :
    compute_combo_chart df entity factor eo dfs =
      .ok (combo_top10 (combo_grouped (combo_df1 df dfs) (eo entity).2 (eo entity).1),
           combo_df1 df dfs) := by
  have hmiss : dfs.filter (fun c => decide (c ∉ df.cols)) = [] := by
    rw [List.filter_eq_nil_iff]
    intro c hcd
    simpa using hd c hcd
  unfold compute_combo_chart
  simp only [hmiss, if_pos rfl, if_pos hc, if_pos hn]
  simp

/-- Claim C3: the ranking aggregator's output has exactly
`min(top_n, distinct group count)` rows with `top_n = 10`, and a zero-row
input yields a zero-row ranked table, not an error. -/
theorem compute_combo_chart_row_count (df : Table) (entity factor : String)
    (eo : String → String × String) (dfs : List String)
    (hd : ∀ c ∈ dfs, c ∈ df.cols)
    (hc : (eo entity).2 ∈ (combo_df1 df dfs).cols)
    (hn : (eo entity).1 ∈ (combo_df1 df dfs).cols) :
    compute_combo_chart df entity factor eo dfs =
      .ok (combo_top10 (combo_grouped (combo_df1 df dfs) (eo entity).2 (eo entity).1),
           combo_df1 df dfs) ∧
    (combo_top10 (combo_grouped (combo_df1 df dfs) (eo entity).2 (eo entity).1)).rows.length =
      min 10 (comboKeys (combo_df1 df dfs) (eo entity).2 (eo entity).1).length ∧
    (df.rows = [] →
      (combo_top10 (combo_grouped (combo_df1 df dfs) (eo entity).2 (eo entity).1)).rows = []) := by
  refine ⟨compute_combo_chart_ok df entity factor eo dfs hd hc hn, ?_, ?_⟩
  · show ((sort_values_desc totalKeyQ _).take 10).length = _
    rw [List.length_take, (sort_values_desc_perm totalKeyQ _).length_eq]
    unfold combo_grouped
    rw [List.length_map, inf_eq_min]
  · intro h
    unfold combo_top10 combo_grouped comboKeys combo_df1 assignCol
    rw [h]
    simp [sort_values_desc, insertionSort]

/-- The C3 scenario: a zero-row table with the expected schema. -/
def c3Table : Table := { cols := ["code", "name", "d"], rows := [] }

/-- The C3 entity-option map. -/
def c3Options : String → String × String := fun _ => ("name", "code")

/-- Witness for `compute_combo_chart_row_count`: the spec's empty-input
scenario returns an empty ranked table, not an error. -/
theorem compute_combo_chart_row_count_witness :
    (∀ c ∈ ["d"], c ∈ c3Table.cols) ∧
    compute_combo_chart c3Table "Airline" "d" c3Options ["d"] =
      .ok (combo_top10 (combo_grouped (combo_df1 c3Table ["d"]) "code" "name"),
           combo_df1 c3Table ["d"]) ∧
    (combo_top10 (combo_grouped (combo_df1 c3Table ["d"]) "code" "name")).rows.length = 0 ∧
    (combo_top10 (combo_grouped (combo_df1 c3Table ["d"]) "code" "name")).rows = [] := by
  have h := compute_combo_chart_row_count c3Table "Airline" "d" c3Options ["d"]
    (by decide) (by decide) (by decide)
  refine ⟨by decide, h.1, ?_, h.2.2 rfl⟩
  exact h.2.1.trans (by decide)

/-- The row of the C5 counterexample table. -/
def c5Row : Row := mkRow [("name", .str "Alpha"), ("d", .num 2)]

/-- The C5 counterexample table: no `total_delay` column. -/
def c5Table : Table := { cols := ["name", "d"], rows := [c5Row] }

/-- The C5 counterexample entity-option map: the entity *code* column is
named `total_delay`, which is absent from the caller's table. -/
def c5Options : String → String × String := fun _ => ("name", "total_delay")

/-- Counterexample for claim C5 as stated: here an entity key column
(`total_delay`) is absent from the table, yet the aggregator succeeds
(grouping on the column it itself derived) instead of failing with a
missing-column error. -/
theorem compute_combo_chart_total_delay_escapes :
    (compute_combo_chart c5Table "Airline" "d" c5Options ["d"]).map
        (fun p => p.1.rows.length) = .ok 1 ∧
    (c5Options "Airline").2 ∉ c5Table.cols := by
  constructor
  · rfl
  · decide

/-- Claim C5 (amended): if a delay-cause column is absent, or an entity key
column other than the derived name `total_delay` is absent, the aggregator
fails with an error that is nonempty and names only columns absent from
the table, each of them one of the referenced columns.  (An entity key
column literally named `total_delay` escapes this: the aggregator creates
that column itself before grouping — see the counterexample.) -/
theorem compute_combo_chart_missing_column_error (df : Table) (entity factor : String)
    (eo : String → String × String) (dfs : List String)
    (h : (∃ c ∈ dfs, c ∉ df.cols) ∨
         ((eo entity).2 ∉ df.cols ∧ (eo entity).2 ≠ "total_delay") ∨
         ((eo entity).1 ∉ df.cols ∧ (eo entity).1 ≠ "total_delay")) :
    ∃ es, compute_combo_chart df entity factor eo dfs = .error es ∧ es ≠ [] ∧
      ∀ c ∈ es, c ∉ df.cols ∧ (c ∈ dfs ∨ c = (eo entity).2 ∨ c = (eo entity).1) := by
  by_cases hm : dfs.filter (fun c => decide (c ∉ df.cols)) = []
  · have hall : ∀ c ∈ dfs, c ∈ df.cols := by
      intro c hc
      by_contra hno
      have hmem : c ∈ dfs.filter (fun c => decide (c ∉ df.cols)) :=
        List.mem_filter.mpr ⟨hc, by simpa using hno⟩
      rw [hm] at hmem
      cases hmem
    rcases h with ⟨c, hc1, hc2⟩ | ⟨hcc, hcc2⟩ | ⟨hnc, hnc2⟩
    · exact absurd (hall c hc1) hc2
    · have hccm : (eo entity).2 ∉ (combo_df1 df dfs).cols := by
        rw [mem_combo_df1_cols]
        rintro (h1 | h1)
        · exact hcc h1
        · exact hcc2 h1
      refine ⟨[(eo entity).2], ?_, by simp, ?_⟩
      · unfold compute_combo_chart
        rw [hm]
        simp only [if_pos rfl, if_neg hccm]
        simp
      · intro c hcm
        rw [List.mem_singleton] at hcm
        subst hcm
        exact ⟨hcc, Or.inr (Or.inl rfl)⟩
    · by_cases hcmem : (eo entity).2 ∈ (combo_df1 df dfs).cols
      · have hnmem : (eo entity).1 ∉ (combo_df1 df dfs).cols := by
          rw [mem_combo_df1_cols]
          rintro (h1 | h1)
          · exact hnc h1
          · exact hnc2 h1
        refine ⟨[(eo entity).1], ?_, by simp, ?_⟩
        · unfold compute_combo_chart
          rw [hm]
          simp only [if_pos rfl, if_pos hcmem, if_neg hnmem]
          simp
        · intro c hcm
          rw [List.mem_singleton] at hcm
          subst hcm
          exact ⟨hnc, Or.inr (Or.inr rfl)⟩
      · refine ⟨[(eo entity).2], ?_, by simp, ?_⟩
        · unfold compute_combo_chart
          rw [hm]
          simp only [if_pos rfl, if_neg hcmem]
          simp
        · intro c hcm
          rw [List.mem_singleton] at hcm
          subst hcm
          have hnotdf : (eo entity).2 ∉ df.cols := fun hin =>
            hcmem ((mem_combo_df1_cols df dfs _).mpr (Or.inl hin))
          exact ⟨hnotdf, Or.inr (Or.inl rfl)⟩
  · refine ⟨dfs.filter (fun c => decide (c ∉ df.cols)), ?_, hm, ?_⟩
    · unfold compute_combo_chart
      simp only [if_neg hm]
    · intro c hcmem
      rw [List.mem_filter] at hcmem
      exact ⟨by simpa using hcmem.2, Or.inl hcmem.1⟩

/-- The C5 witness table: lacks the referenced delay-cause column `d`. -/
def c5wTable : Table := { cols := ["code", "name"], rows := [] }

/-- The C5 witness entity-option map. -/
def c5wOptions : String → String × String := fun _ => ("name", "code")

/-- Witness for `compute_combo_chart_missing_column_error`: a missing
delay-cause column produces a nonempty error naming only absent referenced
columns. -/
theorem compute_combo_chart_missing_column_error_witness :
    (∃ c ∈ ["d"], c ∉ c5wTable.cols) ∧
    (∃ es, compute_combo_chart c5wTable "Airline" "d" c5wOptions ["d"] = .error es ∧ es ≠ [] ∧
      ∀ c ∈ es, c ∉ c5wTable.cols ∧
        (c ∈ ["d"] ∨ c = (c5wOptions "Airline").2 ∨ c = (c5wOptions "Airline").1)) :=
  ⟨by decide, compute_combo_chart_missing_column_error c5wTable "Airline" "d" c5wOptions ["d"]
    (Or.inl (by decide))⟩

/- ### prepare_geospatial_data (source lines 99-121) -/

/-- The two shapes `error_check` can hand back: the "no data" placeholder
text, or the bars chart description. -/
inductive ChartKind where
  | placeholder
  | bars
deriving DecidableEq

/-- `error_check(data)`: Python's `or` short-circuits, so `data is None` and
`len(data) == 0` are tested before `data["Minutes"].sum() == 0` ever
touches the `Minutes` column. -/
def error_check (data : Option Table) : Except (List String) ChartKind :=
  match data with
  | none => .ok .placeholder
  | some t =>
    if t.rows.length = 0 then .ok .placeholder
    else
      match t.getCol "Minutes" with
      | .error e => .error e
      | .ok cells => if sumCells cells = 0 then .ok .placeholder else .ok .bars

/-- Claim C10: `None` and zero-length inputs short-circuit to the
placeholder without reading the `Minutes` column (so they never raise even
when that column is absent), while the all-zero-sum test is reached only
for non-empty inputs and does access `Minutes` — a non-empty table without
a `Minutes` column raises a `KeyError` naming it. -/
theorem error_check_short_circuit (data : Option Table) :
    (data = none → error_check data = .ok .placeholder) ∧
    (∀ t, data = some t → t.rows = [] → error_check data = .ok .placeholder) ∧
    (∀ t, data = some t → t.rows ≠ [] → "Minutes" ∉ t.cols →
      error_check data = .error ["Minutes"]) := by
  refine ⟨?_, ?_, ?_⟩
  · intro h
    subst h
    rfl
  · intro t h hrows
    subst h
    have hred : error_check (some t) =
        if t.rows.length = 0 then .ok .placeholder
        else
          match t.getCol "Minutes" with
          | .error e => .error e
          | .ok cells =>
              if sumCells cells = 0 then .ok .placeholder else .ok .bars := rfl
    rw [hred, if_pos (by rw [hrows]; rfl)]
  · intro t h hrows hmin
    subst h
    have hred : error_check (some t) =
        if t.rows.length = 0 then .ok .placeholder
        else
          match t.getCol "Minutes" with
          | .error e => .error e
          | .ok cells =>
              if sumCells cells = 0 then .ok .placeholder else .ok .bars := rfl
    rw [hred, if_neg (by simpa using hrows)]
    unfold Table.getCol
    rw [if_neg hmin]

/-- The C10 witness table: one row, no `Minutes` column. -/
def c10Table : Table := { cols := ["month"], rows := [mkRow [("month", .num 1)]] }

/-- Witness for `error_check_short_circuit`: `None` and an empty
`Minutes`-less table give the placeholder; a non-empty `Minutes`-less
table errors on the column access. -/
theorem error_check_short_circuit_witness :
    error_check none = .ok .placeholder ∧
    error_check (some { cols := [], rows := [] }) = .ok .placeholder ∧
    error_check (some c10Table) = .error ["Minutes"] :=
  ⟨(error_check_short_circuit none).1 rfl,
   (error_check_short_circuit (some { cols := [], rows := [] })).2.1 _ rfl rfl,
   (error_check_short_circuit (some c10Table)).2.2 c10Table rfl
     (fun h => List.cons_ne_nil _ _ h) (by decide)⟩
